import Mathlib

/-
Verification of the resume-builder application (src/app.py).

Strings are modelled as lists of Unicode code points (`List Nat`), matching
Python's `str` semantics where indexing and replacement operate on code
points.  The two core routines the specification documents — the text
sanitizer `clean_text` (app.py lines 14-32) and the PDF document assembly
performed in the Download-PDF handler (app.py lines 150-209) — are embedded
below, together with an explicit control-flow model of the handler's
try/except and temporary-file behaviour.
-/

/-- Python `text.replace(src, rep)` for a single-character `src`:
every occurrence of the code point `src` is replaced by the string `rep`. -/
def pyReplace (src : Nat) (rep : List Nat) (s : List Nat) : List Nat :=
  s.flatMap (fun c => if c = src then rep else [c])

/-- Python `text.encode('latin-1', 'replace').decode('latin-1')`
(app.py line 32): every code point above 255 becomes `?` (63); code points
0-255 encode to themselves and decode back unchanged. -/
def latin1Scrub (s : List Nat) : List Nat :=
  s.map (fun c => if c ≤ 255 then c else 63)

/-- `clean_text` (app.py lines 14-32).  `if not text: return ""`; then the
eight replacements of the `replacements` dict in insertion order; then the
defensive second pass of line 30 (em dash, then en dash); then the latin-1
round trip of line 32. -/
def clean_text (text : List Nat) : List Nat :=
  if text = [] then []
  else
    let t := pyReplace 0x2018 [39] text
    let t := pyReplace 0x2019 [39] t
    let t := pyReplace 0x201C [34] t
    let t := pyReplace 0x201D [34] t
    let t := pyReplace 0x2013 [45] t
    let t := pyReplace 0x2014 [45] t
    let t := pyReplace 0x2022 [45] t
    let t := pyReplace 0x2026 [46, 46, 46] t
    let t := pyReplace 0x2014 [45] t
    let t := pyReplace 0x2013 [45] t
    latin1Scrub t

/-- `clean_text` as called with a possibly absent (`None`) argument:
`if not text` is true for Python `None` as well as for `""`. -/
def clean_text_py : Option (List Nat) → List Nat
  | none => []
  | some s => clean_text s

/-- The per-character action that the chained replacements plus the latin-1
round trip of `clean_text` amount to (proved below in
`clean_text_eq_flatMap`). -/
def cleanCharMap (c : Nat) : List Nat :=
  if c = 0x2018 ∨ c = 0x2019 then [39]
  else if c = 0x201C ∨ c = 0x201D then [34]
  else if c = 0x2013 ∨ c = 0x2014 ∨ c = 0x2022 then [45]
  else if c = 0x2026 then [46, 46, 46]
  else if c ≤ 255 then [c] else [63]

lemma pyReplace_nil (src : Nat) (rep : List Nat) : pyReplace src rep [] = [] := rfl

lemma pyReplace_append (src : Nat) (rep s t : List Nat) :
    pyReplace src rep (s ++ t) = pyReplace src rep s ++ pyReplace src rep t := by
  simp [pyReplace]

lemma latin1Scrub_append (s t : List Nat) :
    latin1Scrub (s ++ t) = latin1Scrub s ++ latin1Scrub t := by
  simp [latin1Scrub]

/-- The full substitution chain of `clean_text` (without the emptiness
test), as one function. -/
def subChain (s : List Nat) : List Nat :=
  latin1Scrub
    (pyReplace 0x2013 [45]
      (pyReplace 0x2014 [45]
        (pyReplace 0x2026 [46, 46, 46]
          (pyReplace 0x2022 [45]
            (pyReplace 0x2014 [45]
              (pyReplace 0x2013 [45]
                (pyReplace 0x201D [34]
                  (pyReplace 0x201C [34]
                    (pyReplace 0x2019 [39]
                      (pyReplace 0x2018 [39] s))))))))))

lemma clean_text_eq_subChain (s : List Nat) (h : s ≠ []) :
    clean_text s = subChain s := by
  simp [clean_text, subChain, h]

lemma subChain_nil : subChain [] = [] := rfl

lemma subChain_append (s t : List Nat) :
    subChain (s ++ t) = subChain s ++ subChain t := by
  simp only [subChain, pyReplace_append, latin1Scrub_append]

lemma subChain_cons (c : Nat) (s : List Nat) :
    subChain (c :: s) = subChain [c] ++ subChain s := by
  have : c :: s = [c] ++ s := rfl
  rw [this, subChain_append]

lemma subChain_single (c : Nat) : subChain [c] = cleanCharMap c := by
  by_cases h1 : c = 0x2018
  · subst h1; rfl
  by_cases h2 : c = 0x2019
  · subst h2; rfl
  by_cases h3 : c = 0x201C
  · subst h3; rfl
  by_cases h4 : c = 0x201D
  · subst h4; rfl
  by_cases h5 : c = 0x2013
  · subst h5; rfl
  by_cases h6 : c = 0x2014
  · subst h6; rfl
  by_cases h7 : c = 0x2022
  · subst h7; rfl
  by_cases h8 : c = 0x2026
  · subst h8; rfl
  · by_cases h9 : c ≤ 255
    · simp [subChain, pyReplace, latin1Scrub, cleanCharMap, h1, h2, h3, h4, h5, h6, h7, h8, h9]
    · simp [subChain, pyReplace, latin1Scrub, cleanCharMap, h1, h2, h3, h4, h5, h6, h7, h8, h9]

lemma subChain_eq_flatMap (s : List Nat) : subChain s = s.flatMap cleanCharMap := by
  induction s with
  | nil => rfl
  | cons c cs ih =>
    rw [subChain_cons, subChain_single, ih]
    rfl

/-- Shared characterisation: `clean_text` is the per-character map
`cleanCharMap` applied across the string. -/
lemma clean_text_eq_flatMap (s : List Nat) : clean_text s = s.flatMap cleanCharMap := by
  by_cases h : s = []
  · subst h; rfl
  · rw [clean_text_eq_subChain s h, subChain_eq_flatMap]

lemma cleanCharMap_mem_le (c d : Nat) (h : d ∈ cleanCharMap c) : d ≤ 255 := by
  unfold cleanCharMap at h
  split_ifs at h with h1 h2 h3 h4 h5 <;> simp_all

lemma clean_text_mem_le (s : List Nat) (c : Nat) (h : c ∈ clean_text s) : c ≤ 255 := by
  rw [clean_text_eq_flatMap] at h
  rcases List.mem_flatMap.mp h with ⟨d, _, hd⟩
  exact cleanCharMap_mem_le d c hd

lemma cleanCharMap_of_clean (c : Nat) (h : c ≤ 255) : cleanCharMap c = [c] := by
  unfold cleanCharMap
  split_ifs with h1 h2 h3 h4 <;> first | rfl | omega

/-- Shared helper: on a string whose code points are all at most 255,
`clean_text` is the identity. -/
lemma clean_text_of_le255 (s : List Nat) (h : ∀ c ∈ s, c ≤ 255) :
    clean_text s = s := by
  rw [clean_text_eq_flatMap]
  induction s with
  | nil => rfl
  | cons c cs ih =>
    have hc : c ≤ 255 := h c (by simp)
    rw [List.flatMap_cons, cleanCharMap_of_clean c hc,
      ih (fun d hd => h d (List.mem_cons_of_mem c hd))]
    rfl

/-- `clean_text` with the defensive second pass of app.py line 30 removed:
the eight table replacements in dict order, then the latin-1 round trip of
line 32, but not the two extra dash replacements. -/
def clean_text_nosecondpass (text : List Nat) : List Nat :=
  if text = [] then []
  else
    let t := pyReplace 0x2018 [39] text
    let t := pyReplace 0x2019 [39] t
    let t := pyReplace 0x201C [34] t
    let t := pyReplace 0x201D [34] t
    let t := pyReplace 0x2013 [45] t
    let t := pyReplace 0x2014 [45] t
    let t := pyReplace 0x2022 [45] t
    let t := pyReplace 0x2026 [46, 46, 46] t
    latin1Scrub t

/-- The eight table replacements of `clean_text` (no emptiness test, no
second pass, no latin-1 round trip). -/
def subChain8 (s : List Nat) : List Nat :=
  pyReplace 0x2026 [46, 46, 46]
    (pyReplace 0x2022 [45]
      (pyReplace 0x2014 [45]
        (pyReplace 0x2013 [45]
          (pyReplace 0x201D [34]
            (pyReplace 0x201C [34]
              (pyReplace 0x2019 [39]
                (pyReplace 0x2018 [39] s)))))))

/-- Per-character action of the eight table replacements alone. -/
def cleanCharMap8 (c : Nat) : List Nat :=
  if c = 0x2018 ∨ c = 0x2019 then [39]
  else if c = 0x201C ∨ c = 0x201D then [34]
  else if c = 0x2013 ∨ c = 0x2014 ∨ c = 0x2022 then [45]
  else if c = 0x2026 then [46, 46, 46]
  else [c]

lemma subChain_eq_scrub_subChain8 (s : List Nat) :
    subChain s =
      latin1Scrub (pyReplace 0x2013 [45] (pyReplace 0x2014 [45] (subChain8 s))) := rfl

lemma subChain8_append (s t : List Nat) :
    subChain8 (s ++ t) = subChain8 s ++ subChain8 t := by
  simp only [subChain8, pyReplace_append]

lemma subChain8_cons (c : Nat) (s : List Nat) :
    subChain8 (c :: s) = subChain8 [c] ++ subChain8 s := by
  have : c :: s = [c] ++ s := rfl
  rw [this, subChain8_append]

lemma subChain8_single (c : Nat) : subChain8 [c] = cleanCharMap8 c := by
  by_cases h1 : c = 0x2018
  · subst h1; rfl
  by_cases h2 : c = 0x2019
  · subst h2; rfl
  by_cases h3 : c = 0x201C
  · subst h3; rfl
  by_cases h4 : c = 0x201D
  · subst h4; rfl
  by_cases h5 : c = 0x2013
  · subst h5; rfl
  by_cases h6 : c = 0x2014
  · subst h6; rfl
  by_cases h7 : c = 0x2022
  · subst h7; rfl
  by_cases h8 : c = 0x2026
  · subst h8; rfl
  · simp [subChain8, pyReplace, cleanCharMap8, h1, h2, h3, h4, h5, h6, h7, h8]

lemma subChain8_eq_flatMap (s : List Nat) : subChain8 s = s.flatMap cleanCharMap8 := by
  induction s with
  | nil => rfl
  | cons c cs ih =>
    rw [subChain8_cons, subChain8_single, ih]
    rfl

lemma cleanCharMap8_no_dash (c d : Nat) (h : d ∈ cleanCharMap8 c) :
    d ≠ 0x2013 ∧ d ≠ 0x2014 := by
  unfold cleanCharMap8 at h
  split_ifs at h with h1 h2 h3 h4 <;> simp_all

lemma pyReplace_id (a : Nat) (r s : List Nat) (h : ∀ c ∈ s, c ≠ a) :
    pyReplace a r s = s := by
  induction s with
  | nil => rfl
  | cons c cs ih =>
    have hc : c ≠ a := h c (by simp)
    have ih2 := ih (fun d hd => h d (List.mem_cons_of_mem c hd))
    simp only [pyReplace, List.flatMap_cons] at ih2 ⊢
    rw [if_neg hc, ih2]
    rfl

lemma subChain8_no_dash (s : List Nat) :
    ∀ c ∈ subChain8 s, c ≠ 0x2013 ∧ c ≠ 0x2014 := by
  intro c hc
  rw [subChain8_eq_flatMap] at hc
  rcases List.mem_flatMap.mp hc with ⟨d, _, hd⟩
  exact cleanCharMap8_no_dash d c hd

/-- C2: for every input string, the output of `clean_text` contains only
code points 0 through 255, and the whole function acts per character as the
documented substitution table (smart quotes to apostrophe or double quote,
dashes and bullet to hyphen, ellipsis to three dots) followed by latin-1
replacement of everything else above 255. -/
theorem clean_text_latin1_and_substitutions (s : List Nat) :
    (∀ c ∈ clean_text s, c ≤ 255) ∧
    clean_text s = s.flatMap (fun c =>
      if c = 0x2018 ∨ c = 0x2019 then [39]
      else if c = 0x201C ∨ c = 0x201D then [34]
      else if c = 0x2013 ∨ c = 0x2014 ∨ c = 0x2022 then [45]
      else if c = 0x2026 then [46, 46, 46]
      else if c ≤ 255 then [c] else [63]) :=
  ⟨clean_text_mem_le s, clean_text_eq_flatMap s⟩

/-- Witness for C2 at a concrete input: a smart quote becomes an
apostrophe and an emoji becomes the replacement glyph, both at most 255. -/
theorem clean_text_latin1_and_substitutions_witness :
    (39 ≤ 255) ∧ clean_text [0x2018, 128512] = [39, 63] := by
  refine ⟨?_, ?_⟩
  · exact (clean_text_latin1_and_substitutions [0x2018, 128512]).1 39 (by decide)
  · rw [(clean_text_latin1_and_substitutions [0x2018, 128512]).2]
    decide

/-- C3: `clean_text` is idempotent. -/
theorem clean_text_idempotent (s : List Nat) :
    clean_text (clean_text s) = clean_text s :=
  clean_text_of_le255 (clean_text s) (clean_text_mem_le s)

/-- C4: `clean_text` is total: absent (`None`) and empty input both yield
the empty string, every output code point is at most 255 for any input,
and a code point above 255 that is not in the substitution table is
replaced by the fixed replacement glyph `?` (63) rather than raising. -/
theorem clean_text_total_safe :
    clean_text_py none = [] ∧ clean_text_py (some []) = [] ∧
    (∀ s, ∀ c ∈ clean_text_py (some s), c ≤ 255) ∧
    (∀ c, 255 < c →
      (c ≠ 0x2018 ∧ c ≠ 0x2019 ∧ c ≠ 0x201C ∧ c ≠ 0x201D ∧
       c ≠ 0x2013 ∧ c ≠ 0x2014 ∧ c ≠ 0x2022 ∧ c ≠ 0x2026) →
      clean_text_py (some [c]) = [63]) := by
  refine ⟨rfl, rfl, fun s => clean_text_mem_le s, fun c hgt hne => ?_⟩
  show clean_text [c] = [63]
  rw [clean_text_eq_flatMap]
  obtain ⟨n1, n2, n3, n4, n5, n6, n7, n8⟩ := hne
  simp only [List.flatMap_cons, List.flatMap_nil, List.append_nil, cleanCharMap]
  split_ifs <;> first | rfl | omega

/-- Witness for C4 at a concrete input: an emoji code point becomes `?`. -/
theorem clean_text_total_safe_witness : clean_text_py (some [128512]) = [63] :=
  clean_text_total_safe.2.2.2 128512 (by decide) (by decide)

/-- C5: the defensive second dash pass of app.py line 30 is a no-op:
`clean_text` equals the same function with that pass removed, on every
input. -/
theorem clean_text_secondpass_noop (s : List Nat) :
    clean_text s = clean_text_nosecondpass s := by
  by_cases h : s = []
  · subst h; rfl
  · have h8 := subChain8_no_dash s
    have e1 : pyReplace 0x2014 [45] (subChain8 s) = subChain8 s :=
      pyReplace_id _ _ _ (fun c hc => (h8 c hc).2)
    have e2 : pyReplace 0x2013 [45] (subChain8 s) = subChain8 s :=
      pyReplace_id _ _ _ (fun c hc => (h8 c hc).1)
    have hn : clean_text_nosecondpass s = latin1Scrub (subChain8 s) := by
      simp only [clean_text_nosecondpass, if_neg h]
      rfl
    rw [clean_text_eq_subChain s h, subChain_eq_scrub_subChain8, e1, e2, hn]

/-- C10: `clean_text` is the identity on a string whose code points are all
at most 255 and which contains none of the eight substituted punctuation
characters. -/
theorem clean_text_identity_on_clean (s : List Nat)
    (h1 : ∀ c ∈ s, c ≤ 255)
    (_h2 : ∀ c ∈ s,
      c ≠ 0x2018 ∧ c ≠ 0x2019 ∧ c ≠ 0x201C ∧ c ≠ 0x201D ∧
      c ≠ 0x2013 ∧ c ≠ 0x2014 ∧ c ≠ 0x2022 ∧ c ≠ 0x2026) :
    clean_text s = s :=
  clean_text_of_le255 s h1

/-- Witness for C10 at a concrete input: a plain latin-1 string is left
unchanged. -/
theorem clean_text_identity_on_clean_witness :
    clean_text [72, 105, 233] = [72, 105, 233] :=
  clean_text_identity_on_clean [72, 105, 233] (by decide) (by decide)

/-- Code points of a Lean string literal, for the ASCII literals of
app.py. -/
def strL (s : String) : List Nat := s.data.map Char.toNat

/-- Python `str.upper()` restricted to the ASCII range, which covers the
five literal section titles that `add_section` is called with. -/
def pyUpper (s : List Nat) : List Nat :=
  s.map (fun c => if 97 ≤ c ∧ c ≤ 122 then c - 32 else c)

/-- Elements placed into the FPDF object by the Download-PDF handler, in
placement order.  Geometry that depends on the running cursor position
(the `pdf.get_y()` arguments of `pdf.line` on line 163) is elided, since no
claim depends on it; everything else carries the literal arguments of the
corresponding call. -/
inductive Ev
  | addPage
  | setAutoPageBreak (auto : Bool) (margin : ℚ)
  | setFont (family style : String) (size : ℚ)
  | cell (w h : ℚ) (txt : List Nat) (ln : Bool) (align : Option String)
      (link : Option (List Nat))
  | hline
  | lnBreak (h : ℚ)
  | multiCell (w h : ℚ) (txt : List Nat)
  | image (data : List Nat) (x y w : ℚ)
  | setXY (x y : ℚ)
  deriving DecidableEq

/-- The form fields the Download-PDF handler reads (app.py lines 65-78 and
147).  `current_resume` is the raw experience draft; `final_exp` is the
edited AI-rewritten text from the Refine-Experience box. -/
structure Inputs where
  user_name : List Nat
  contact_info : List Nat
  video_url : List Nat
  education_text : List Nat
  skills_text : List Nat
  awards_text : List Nat
  volunteering_text : List Nat
  current_resume : List Nat
  final_exp : List Nat

/-- `add_section` (app.py lines 157-168): nothing is placed when the body
is empty; otherwise the upper-cased bold title, a rule, a small gap, and
the sanitized body as a multi-line cell followed by a gap. -/
def add_section (title body : List Nat) : List Ev :=
  if body = [] then []
  else
    [Ev.setFont "Times" "B" 12,
     Ev.cell 0 6 (pyUpper title) true none none,
     Ev.hline,
     Ev.lnBreak 2,
     Ev.setFont "Times" "" (21 / 2),
     Ev.multiCell 0 5 (clean_text body),
     Ev.lnBreak 4]

/-- Page creation and auto page break setup (app.py lines 152-154). -/
def pageSetup : List Ev := [Ev.addPage, Ev.setAutoPageBreak true 15]

/-- The header block (app.py lines 170-174): centered sanitized name and
contact line. -/
def headerBlock (i : Inputs) : List Ev :=
  [Ev.setFont "Times" "B" 22,
   Ev.cell 0 10 (clean_text i.user_name) true (some "C") none,
   Ev.setFont "Times" "" 10,
   Ev.cell 0 5 (clean_text i.contact_info) true (some "C") none]

/-- The optional QR block (app.py lines 176-190): only when `video_url` is
non-empty, the QR image (encoding the URL) at the top right and a caption
cell linking back to the URL. -/
def qrBlock (i : Inputs) : List Ev :=
  if i.video_url = [] then []
  else
    [Ev.image i.video_url 170 10 22,
     Ev.setXY 170 32,
     Ev.setFont "Times" "I" 7,
     Ev.cell 22 4 (strL "Video Intro") false (some "C") (some i.video_url)]

/-- The full sequence of elements placed by the Download-PDF handler
(app.py lines 152-199): setup, header, optional QR block, spacer, then the
five sections in their fixed order, Professional Experience using
`final_exp`. -/
def assemble (i : Inputs) : List Ev :=
  pageSetup ++ headerBlock i ++ qrBlock i ++ [Ev.lnBreak 8]
    ++ add_section (strL "Education") i.education_text
    ++ add_section (strL "Technical Skills") i.skills_text
    ++ add_section (strL "Professional Experience") i.final_exp
    ++ add_section (strL "Volunteering & Social Work") i.volunteering_text
    ++ add_section (strL "Awards & Grants") i.awards_text

/-- Recognizes the section-title cells produced by `add_section` (width 0,
height 6, line break, no alignment, no link); the header and caption cells
all carry an alignment. -/
def isSectionTitle : Ev → Option (List Nat)
  | Ev.cell w h t l a lk =>
      if w = 0 ∧ h = 6 ∧ l = true ∧ a = none ∧ lk = none then some t else none
  | _ => none

/-- The section titles of a placed-element sequence, in order. -/
def sectionTitles (evs : List Ev) : List (List Nat) := evs.filterMap isSectionTitle

/-- The section body texts of a placed-element sequence, in order
(`multi_cell` is used only for section bodies). -/
def sectionBodies (evs : List Ev) : List (List Nat) :=
  evs.filterMap (fun e => match e with | Ev.multiCell _ _ t => some t | _ => none)

/-- C6: for every combination of populated and empty fields, the section
titles placed by the handler appear in exactly the fixed order Education,
Technical Skills, Professional Experience, Volunteering & Social Work,
Awards & Grants (each present exactly when its body is non-empty), and the
Professional Experience body is the edited `final_exp` text, not the raw
draft. -/
theorem assemble_section_order (i : Inputs) :
    sectionTitles (assemble i) =
      (if i.education_text = [] then [] else [pyUpper (strL "Education")]) ++
      (if i.skills_text = [] then [] else [pyUpper (strL "Technical Skills")]) ++
      (if i.final_exp = [] then [] else [pyUpper (strL "Professional Experience")]) ++
      (if i.volunteering_text = [] then []
       else [pyUpper (strL "Volunteering & Social Work")]) ++
      (if i.awards_text = [] then [] else [pyUpper (strL "Awards & Grants")]) ∧
    sectionBodies (assemble i) =
      (if i.education_text = [] then [] else [clean_text i.education_text]) ++
      (if i.skills_text = [] then [] else [clean_text i.skills_text]) ++
      (if i.final_exp = [] then [] else [clean_text i.final_exp]) ++
      (if i.volunteering_text = [] then [] else [clean_text i.volunteering_text]) ++
      (if i.awards_text = [] then [] else [clean_text i.awards_text]) := by
  constructor <;>
  · simp only [assemble, pageSetup, headerBlock, qrBlock, add_section, sectionTitles,
      sectionBodies, isSectionTitle, List.filterMap_append]
    split_ifs <;> simp [isSectionTitle]

/-- C8: an empty section body places nothing, and assembly with all five
section bodies empty yields exactly the header part of the document (page
setup, name and contact lines, the optional QR block, and the spacer) —
no error, no further content. -/
theorem assemble_empty_sections_header_only (i : Inputs)
    (h1 : i.education_text = []) (h2 : i.skills_text = [])
    (h3 : i.final_exp = []) (h4 : i.volunteering_text = [])
    (h5 : i.awards_text = []) :
    (∀ t, add_section t [] = []) ∧
    assemble i = pageSetup ++ headerBlock i ++ qrBlock i ++ [Ev.lnBreak 8] := by
  refine ⟨fun t => rfl, ?_⟩
  simp [assemble, add_section, h1, h2, h3, h4, h5]

/-- Concrete all-empty form input used to witness C8. -/
def emptyInputs : Inputs :=
  { user_name := [], contact_info := [], video_url := [], education_text := [],
    skills_text := [], awards_text := [], volunteering_text := [],
    current_resume := [], final_exp := [] }

/-- Witness for C8 at the all-empty input. -/
theorem assemble_empty_sections_header_only_witness :
    (∀ t, add_section t [] = []) ∧
    assemble emptyInputs =
      pageSetup ++ headerBlock emptyInputs ++ qrBlock emptyInputs ++ [Ev.lnBreak 8] :=
  assemble_empty_sections_header_only emptyInputs rfl rfl rfl rfl rfl

/-- Modelled from the spec: the byte encoding of one placed element inside
the serialized document.  The serialization itself (`pdf.output(dest="S")`,
app.py line 201) is performed by the third-party FPDF engine, whose code is
not part of this repository; following the spec's description of the
assembled document being "encoded as a byte stream", every placed element
contributes a non-empty run of bytes — a one-byte operator tag plus the
element's text payload. -/
def encodeEv : Ev → List Nat
  | Ev.addPage => [80]
  | Ev.setAutoPageBreak _ _ => [66]
  | Ev.setFont _ _ _ => [70]
  | Ev.cell _ _ txt _ _ _ => 67 :: txt
  | Ev.hline => [76]
  | Ev.lnBreak _ => [10]
  | Ev.multiCell _ _ txt => 77 :: txt
  | Ev.image _ _ _ _ => [73]
  | Ev.setXY _ _ => [88]

/-- Modelled from the spec: `pdf.output(dest="S").encode("latin-1",
errors='replace')` (app.py line 201) — the element encodings in placement
order, re-encoded latin-1 with replacement. -/
def pdf_output (doc : List Ev) : List Nat :=
  latin1Scrub (doc.flatMap encodeEv)

lemma encodeEv_ne_nil (e : Ev) : encodeEv e ≠ [] := by
  cases e <;> simp [encodeEv]

/-- C9: with the same form fields, a non-empty `video_url` yields strictly
more output bytes than an empty one: the QR block contributes four extra
placed elements, each encoding to at least one byte, and everything else
is unchanged. -/
theorem assemble_videoUrl_longer (i : Inputs) (h : i.video_url ≠ []) :
    (pdf_output (assemble { i with video_url := [] })).length <
      (pdf_output (assemble i)).length := by
  simp only [pdf_output, latin1Scrub, assemble, pageSetup, headerBlock, qrBlock,
    add_section, List.length_map, List.flatMap_append, List.length_append, if_neg h]
  simp [encodeEv]

/-- Concrete input with a non-empty video URL used to witness C9
("h" as URL text; the layer performs no URL validation). -/
def videoInputs : Inputs :=
  { user_name := [74], contact_info := [76], video_url := [104],
    education_text := [69], skills_text := [], awards_text := [],
    volunteering_text := [], current_resume := [], final_exp := [] }

/-- Witness for C9 at a concrete input. -/
theorem assemble_videoUrl_longer_witness :
    (pdf_output (assemble { videoInputs with video_url := [] })).length <
      (pdf_output (assemble videoInputs)).length :=
  assemble_videoUrl_longer videoInputs (by decide)

/-- Outcome of the Download-PDF button handler (app.py lines 150-209):
either the download button is offered with the assembled document, or the
except branch (lines 208-209) showed an error message and no download is
offered. -/
inductive Outcome
  | download (doc : List Ev)
  | errorShown
  deriving DecidableEq

/-- Which of the fallible library calls inside the try block raise, in
execution order: the header cells (app.py lines 171-174), `pdf.image`
(line 186), the caption placement (lines 187-189), the section rendering
(lines 195-199), and the serialization `pdf.output` (line 201). -/
structure FailSpec where
  headerFails : Bool
  imageFails : Bool
  captionFails : Bool
  sectionsFails : Bool
  outputFails : Bool

/-- Control-flow model of the Download-PDF handler (app.py lines 150-209).
First component: the outcome — the surrounding try/except turns any raise
into an error message instead of a download.  Second component: the
temporary QR image files still on disk when the handler returns.
`tempfile.NamedTemporaryFile(delete=False)` (line 182) creates the file
(id 0) only when `video_url` is non-empty; `os.unlink(qr_path)` (line 190)
removes it, but runs only if `pdf.image` and the caption placement (lines
186-189) did not raise — the except branch performs no cleanup. -/
def downloadHandler (i : Inputs) (f : FailSpec) : Outcome × List Nat :=
  if f.headerFails then (Outcome.errorShown, [])
  else if i.video_url ≠ [] then
    if f.imageFails then (Outcome.errorShown, [0])
    else if f.captionFails then (Outcome.errorShown, [0])
    else if f.sectionsFails then (Outcome.errorShown, [])
    else if f.outputFails then (Outcome.errorShown, [])
    else (Outcome.download (assemble i), [])
  else
    if f.sectionsFails then (Outcome.errorShown, [])
    else if f.outputFails then (Outcome.errorShown, [])
    else (Outcome.download (assemble i), [])

/-- Concrete input with a non-empty video URL for the C1 counterexample. -/
def qrFailInputs : Inputs :=
  { user_name := [], contact_info := [], video_url := [104],
    education_text := [], skills_text := [], awards_text := [],
    volunteering_text := [], current_resume := [], final_exp := [] }

/-- Failure pattern for the C1 counterexample: only `pdf.image` raises. -/
def qrFailSpec : FailSpec :=
  { headerFails := false, imageFails := true, captionFails := false,
    sectionsFails := false, outputFails := false }

/-- Counterexample to C1: with a non-empty videoUrl, when `pdf.image`
(app.py line 186) raises after the temporary QR file has been created, the
handler returns with the temporary file still on disk — `os.unlink` on
line 190 is never reached and the except branch does not delete it. -/
theorem downloadHandler_temp_leak :
    qrFailInputs.video_url ≠ [] ∧ (downloadHandler qrFailInputs qrFailSpec).2 ≠ [] := by
  constructor <;> decide

/-- C1 as amended: the temporary QR image file never survives the handler
provided the QR block itself (`pdf.image` and the caption placement) does
not raise; failures in any step outside the QR block — header, section
rendering, serialization — leave no temporary file, and with an empty
videoUrl no temporary file is ever created. -/
theorem downloadHandler_no_temp_of_qr_ok (i : Inputs) (f : FailSpec)
    (h1 : f.imageFails = false) (h2 : f.captionFails = false) :
    (downloadHandler i f).2 = [] := by
  unfold downloadHandler
  split_ifs <;> simp_all

/-- Failure pattern for the C1 amended witness: serialization raises. -/
def outFailSpec : FailSpec :=
  { headerFails := false, imageFails := false, captionFails := false,
    sectionsFails := false, outputFails := true }

/-- Witness for the amended C1: with a non-empty videoUrl and a failing
serialization step, no temporary file remains. -/
theorem downloadHandler_no_temp_of_qr_ok_witness :
    (downloadHandler qrFailInputs outFailSpec).2 = [] :=
  downloadHandler_no_temp_of_qr_ok qrFailInputs outFailSpec rfl rfl

/-- C7: the handler surfaces every raise inside the try block as an error
message with no download offered, and offers a download exactly when no
step raised — and then the offered bytes are those of the fully assembled
document, never a partial one. -/
theorem downloadHandler_error_no_partial (i : Inputs) (f : FailSpec) :
    (downloadHandler i f).1 =
      if f.headerFails ∨ (i.video_url ≠ [] ∧ (f.imageFails ∨ f.captionFails)) ∨
          f.sectionsFails ∨ f.outputFails
      then Outcome.errorShown
      else Outcome.download (assemble i) := by
  unfold downloadHandler
  split_ifs <;> simp_all
